import Mathlib

/-!
Verification of the PR-review pipeline in `review.py` against its design
specification.  The Python source is shallowly embedded: pure string
manipulation becomes Lean functions on `String`/`List Char`, the network
interactions become explicit outcome data types, and exception-based
control flow becomes total functions returning the value the Python code
would return after its `try`/`except` handling.
-/

set_option maxRecDepth 4000

/-- The opening curly-brace character. -/
def obr : Char := Char.ofNat 123

/-- The closing curly-brace character. -/
def cbr : Char := Char.ofNat 125

/-- The backtick character. -/
def btick : Char := Char.ofNat 96

/-- Text of the `REVIEW_PROMPT` template (`review.py` lines 21-54) up to the
first brace escape. -/
def promptSeg0 : String := "Please review these code changes and provide feedback in the following JSON format:\n\n"

/-- Template text between the first and second `\x7b\x7b` escapes. -/
def promptSeg1 : String := "\n    \"files\": "

/-- Template text between the second and third `\x7b\x7b` escapes. -/
def promptSeg2 : String := "\n        \"path/to/file1.ext\": [\n            "

/-- Template text of the first example comment object. -/
def promptSeg3 : String := "\n                \"line_number\": 23,\n                \"line_content\": \"the actual code line or block being referenced\",\n                \"comment\": \"your review comment about this specific code\"\n            "

/-- Template text between the first `\x7d\x7d` escape and the fourth
`\x7b\x7b` escape. -/
def promptSeg4 : String := ",\n            ...\n        ],\n        \"path/to/file2.ext\": [\n            "

/-- Template text of the second example comment object. -/
def promptSeg5 : String := "\n                \"line_number\": 15,\n                \"line_content\": \"the actual code line or block being referenced\",\n                \"comment\": \"your review comment about this specific code\"\n            "

/-- Template text between the second and third `\x7d\x7d` escapes. -/
def promptSeg6 : String := ",\n            ...\n        ],\n        ...\n    "

/-- Template text between the third and fourth `\x7d\x7d` escapes. -/
def promptSeg7 : String := "\n"

/-- Template text between the last brace escape and the `diff_content`
placeholder: the guideline list, ending with the opening backtick. -/
def promptSeg8 : String := "\n\n!! IMPORTANT guidelines:\n1. ONLY respond with the JSON format\n2. Keep feedback concise and to the point\n3. Use relaxed, non-robotic language in comments\n4. Find unused code and imports\n5. Find code that does not follow best practices\n6. Suggest performance improvements if possible\n7. Suggest more legible code if possible\n\nHere is the PR diff: `"

/-- The module-level constant `REVIEW_PROMPT` of `review.py` (lines 21-54).
The Python source writes it as one `str.format` template literal in which
doubled braces are escapes for literal braces and `{diff_content}` is the
single placeholder; it is assembled here from its brace-free segments with
the escapes and the placeholder spelled out between them, in source order. -/
def REVIEW_PROMPT : String :=
  promptSeg0 ++ ("\x7b\x7b" ++ (promptSeg1 ++ ("\x7b\x7b" ++ (promptSeg2 ++ ("\x7b\x7b" ++ (promptSeg3 ++ ("\x7d\x7d" ++ (promptSeg4 ++ ("\x7b\x7b" ++ (promptSeg5 ++ ("\x7d\x7d" ++ (promptSeg6 ++ ("\x7d\x7d" ++ (promptSeg7 ++ ("\x7d\x7d" ++ (promptSeg8 ++ "{diff_content}`"))))))))))))))))

/-- The characters of the placeholder `\x7bdiff_content\x7d` after its
opening brace: the field name `diff_content` followed by the closing
brace. -/
def phChars : List Char := ['d', 'i', 'f', 'f', '_', 'c', 'o', 'n', 't', 'e', 'n', 't', cbr]

/-- One left-to-right scan of Python `template.format(diff_content=arg)`
restricted to the template constructs appearing in `REVIEW_PROMPT`: the
escapes `\x7b\x7b` and `\x7d\x7d` render as single braces, and the
placeholder `\x7bdiff_content\x7d` is replaced by `arg`; every other
character is copied unchanged.  The placeholder is the last format
construct of `REVIEW_PROMPT`, so after substituting it the scan copies
the remaining characters unchanged; likewise, on a malformed template (a
lone brace, where Python `str.format` raises) the scan stops and copies
the remainder.  Neither shortcut is exercised by any construct occurring
in `REVIEW_PROMPT` before its placeholder. -/
def pyFormatAux (arg : List Char) : List Char → List Char
  | [] => []
  | c :: rest =>
    if c = obr then
      match rest with
      | c2 :: rest2 =>
        if c2 = obr then obr :: pyFormatAux arg rest2
        else if phChars.isPrefixOf rest then arg ++ rest.drop phChars.length
        else c :: rest
      | [] => [c]
    else if c = cbr then
      match rest with
      | c2 :: rest2 =>
        if c2 = cbr then cbr :: pyFormatAux arg rest2
        else c :: rest
      | [] => [c]
    else c :: pyFormatAux arg rest

/-- Python `template.format(diff_content=arg)` on strings. -/
def pyFormat (template arg : String) : String :=
  String.mk (pyFormatAux arg.data template.data)

/-- The prompt sent to both providers for a given diff:
`REVIEW_PROMPT.format(diff_content=diff_content)` (lines 85 and 124 of
`review.py`). -/
def promptOf (diff_content : String) : String :=
  pyFormat REVIEW_PROMPT diff_content

/-- The rendered template text that precedes the diff inside the prompt:
the segments with the brace escapes rendered as single braces. -/
def promptBeforeDiff : String :=
  promptSeg0 ++ ("\x7b" ++ (promptSeg1 ++ ("\x7b" ++ (promptSeg2 ++ ("\x7b" ++ (promptSeg3 ++ ("\x7d" ++ (promptSeg4 ++ ("\x7b" ++ (promptSeg5 ++ ("\x7d" ++ (promptSeg6 ++ ("\x7d" ++ (promptSeg7 ++ ("\x7d" ++ promptSeg8)))))))))))))))

/-- The rendered template text that follows the diff inside the prompt. -/
def promptAfterDiff : String := "`"

/-- Characters that the format scan copies unchanged: anything that is not
a brace. -/
abbrev braceFree (cs : List Char) : Prop := ∀ c ∈ cs, c ≠ obr ∧ c ≠ cbr

/-- Python truthiness of an optional string: `None` and the empty string
are falsy, every other string is truthy. -/
def pyTruthy : Option String → Bool
  | none => false
  | some s => !(s == "")

/-- Python `a or b` on optional strings: `b` when `a` is falsy. -/
def pyOrStr (a b : Option String) : Option String :=
  if pyTruthy a then a else b

/-- Accumulating digit scan for Python `int`: digits with single
underscores allowed between digits. -/
def pyDigitsAux : Nat → List Char → Option Nat
  | acc, [] => some acc
  | acc, c :: rest =>
    if c.isDigit then pyDigitsAux (acc * 10 + (c.toNat - 48)) rest
    else if c = '_' then
      match rest with
      | d :: rest2 =>
        if d.isDigit then pyDigitsAux (acc * 10 + (d.toNat - 48)) rest2 else none
      | [] => none
    else none

/-- A nonempty run of decimal digits (with Python 3.6 underscore
grouping), as a natural number. -/
def pyDigits : List Char → Option Nat
  | [] => none
  | c :: rest => if c.isDigit then pyDigitsAux (c.toNat - 48) rest else none

/-- Strip leading and trailing whitespace, as Python `int` does before
parsing. -/
def pyStrip (s : List Char) : List Char :=
  ((s.dropWhile Char.isWhitespace).reverse.dropWhile Char.isWhitespace).reverse

/-- Python `int(s)` on a string: optional surrounding whitespace, an
optional sign, then decimal digits; `none` when `int` would raise
`ValueError`. -/
def pyIntParse (s : String) : Option Int :=
  match pyStrip s.data with
  | '+' :: rest => (pyDigits rest).map (fun n => (n : Int))
  | '-' :: rest => (pyDigits rest).map (fun n => -(n : Int))
  | rest => (pyDigits rest).map (fun n => (n : Int))

/-- The kind of exception Python raises from `int(os.getenv(...))`:
`TypeError` for `int(None)`, `ValueError` for a non-numeric string. -/
inductive PyError where
  | typeError
  | valueError
deriving DecidableEq

/-- An HTTP response as seen by `requests.get`: a status code and a body. -/
structure HttpResponse where
  status : Nat
  text : String
deriving DecidableEq

/-- The outcome of the single `requests.get` call in `get_pr_changes`:
either a response arrived, or a network-level error (DNS failure,
connection refused, timeout) was raised. -/
inductive FetchOutcome where
  | resp (r : HttpResponse)
  | netError (msg : String)
deriving DecidableEq

/-- `PRReviewer.get_pr_changes` (`review.py` lines 149-160): issues one GET
for the PR diff; `response.raise_for_status()` raises `HTTPError` exactly
for status codes 400-599; the surrounding `except Exception` catches any
raised error, prints it, and returns the empty string; otherwise the
response body is returned. -/
def PRReviewer.get_pr_changes : FetchOutcome → String
  | .netError _ => ""
  | .resp r => if 400 ≤ r.status ∧ r.status < 600 then "" else r.text

/-- The shape of `completion.choices[0].message` as probed by the source:
it may lack a `content` attribute, carry `content = None`, or carry a
string. -/
inductive MessageShape where
  | missingContentAttr
  | contentNone
  | contentStr (s : String)
deriving DecidableEq

/-- The outcome of the `chat.completions.create` call: a completion with
its list of choices, or an exception raised anywhere inside the `try`
block (transport, HTTP, or SDK error). -/
inductive CompletionResult where
  | completion (choices : List MessageShape)
  | raised (msg : String)
deriving DecidableEq

/-- `OpenRouterReviewer.get_review` (`review.py` lines 77-98) after the
request: returns `completion.choices[0].message.content` when the
`content` attribute exists (Python `None` is modelled as `none`), the
empty string when the attribute is missing, and the empty string when
anything in the `try` block raised (including `IndexError` on an empty
`choices` list). -/
def OpenRouterReviewer.get_review : CompletionResult → Option String
  | .raised _ => some ""
  | .completion [] => some ""
  | .completion (m :: _) =>
    match m with
    | .missingContentAttr => some ""
    | .contentNone => none
    | .contentStr s => some s

/-- `NebiusReviewer.get_review` (`review.py` lines 113-138): identical
response handling to the OpenRouter variant. -/
def NebiusReviewer.get_review : CompletionResult → Option String
  | .raised _ => some ""
  | .completion [] => some ""
  | .completion (m :: _) =>
    match m with
    | .missingContentAttr => some ""
    | .contentNone => none
    | .contentStr s => some s

/-- One chat message of the request body. -/
structure ChatMessage where
  role : String
  content : String
deriving DecidableEq

/-- The chat-completion request a reviewer variant sends: endpoint, model
identifier, optional sampling parameters, and the message list. -/
structure ChatRequest where
  base_url : String
  model : String
  max_tokens : Option Nat
  temperature : Option Rat
  top_p : Option Rat
  messages : List ChatMessage
deriving DecidableEq

/-- The request constructed by `OpenRouterReviewer.get_review`
(`review.py` lines 72-88): OpenRouter endpoint, `deepseek/deepseek-r1:free`,
no extra sampling parameters, one user message holding the rendered
prompt. -/
def OpenRouterReviewer.request (diff_content : String) : ChatRequest :=
  ⟨"https://openrouter.ai/api/v1", "deepseek/deepseek-r1:free", none, none, none,
    [⟨"user", promptOf diff_content⟩]⟩

/-- The request constructed by `NebiusReviewer.get_review` (`review.py`
lines 108-127): Nebius endpoint, `deepseek-ai/DeepSeek-R1`,
`max_tokens=8192`, `temperature=0.6`, `top_p=0.95`, one user message
holding the rendered prompt. -/
def NebiusReviewer.request (diff_content : String) : ChatRequest :=
  ⟨"https://api.studio.nebius.ai/v1/", "deepseek-ai/DeepSeek-R1", some 8192,
    some (6 / 10 : Rat), some (95 / 100 : Rat), [⟨"user", promptOf diff_content⟩]⟩

/-- The `OpenAI` client object as configured by the constructors. -/
structure OpenAIClient where
  base_url : String
  api_key : String
deriving DecidableEq

/-- `OpenRouterReviewer.__init__` (`review.py` lines 67-75):
`api_key = api_key or os.getenv('OPENROUTER_API_KEY')`, then
`ValueError` when the result is falsy, else an `OpenAI` client for the
OpenRouter endpoint. -/
def OpenRouterReviewer.init (api_key env_key : Option String) : Except String OpenAIClient :=
  match pyOrStr api_key env_key with
  | some s =>
    if s = "" then
      .error "OpenRouter API key must be provided either directly or via OPENROUTER_API_KEY environment variable"
    else .ok ⟨"https://openrouter.ai/api/v1", s⟩
  | none =>
    .error "OpenRouter API key must be provided either directly or via OPENROUTER_API_KEY environment variable"

/-- `NebiusReviewer.__init__` (`review.py` lines 103-111): same key logic
with `NEBIUS_API_KEY` and the Nebius endpoint. -/
def NebiusReviewer.init (api_key env_key : Option String) : Except String OpenAIClient :=
  match pyOrStr api_key env_key with
  | some s =>
    if s = "" then
      .error "Nebius API key must be provided either directly or via NEBIUS_API_KEY environment variable"
    else .ok ⟨"https://api.studio.nebius.ai/v1/", s⟩
  | none =>
    .error "Nebius API key must be provided either directly or via NEBIUS_API_KEY environment variable"

/-- Observable pipeline actions of one `main()` run (`review.py` lines
196-207): the diff GET, the rendering of the prompt inside `get_review`,
and the chat-completion request. -/
inductive RunAction where
  | fetchDiff
  | buildPrompt
  | providerCall
deriving DecidableEq

/-- The external-world inputs one `main()` run can consume: the outcome of
the diff GET and the outcome of the provider call. -/
structure WorldInputs where
  fetchOutcome : FetchOutcome
  completionResult : CompletionResult

/-- A fetch outcome on which the diff GET is a failure: a network-level
error, or an HTTP status for which `raise_for_status` raises (4xx/5xx). -/
def isFetchFailure : FetchOutcome → Bool
  | .netError _ => true
  | .resp r => decide (400 ≤ r.status) && decide (r.status < 600)

/-- The pipeline actions `main()` performs (`review.py` lines 196-207):
after `get_pr_changes`, the guard `if not changes: return` stops the run
on an empty string; otherwise `get_ai_review` renders the prompt and
issues the provider call. -/
def mainTrace (w : WorldInputs) : List RunAction :=
  if PRReviewer.get_pr_changes w.fetchOutcome = "" then [RunAction.fetchDiff]
  else [RunAction.fetchDiff, RunAction.buildPrompt, RunAction.providerCall]

/-- The five environment variables `main()` checks before running
(`review.py` line 178). -/
def requiredEnvVars : List String :=
  ["BITBUCKET_URL", "BITBUCKET_USERNAME", "BITBUCKET_PASSWORD", "BITBUCKET_PROJECT", "BITBUCKET_REPOSITORY"]

/-- The `missing_vars` computation of `main()` (`review.py` line 179). -/
def missingVars (env : String → Option String) : List String :=
  requiredEnvVars.filter (fun v => !(pyTruthy (env v)))

/-- Module-level evaluation of
`BITBUCKET_PR_ID = int(os.getenv('BITBUCKET_PR_ID'))` (`review.py`
line 18), which runs at import time, before `main()`: `int(None)` raises
`TypeError`, a non-numeric string raises `ValueError`. -/
def moduleLoad (env : String → Option String) : Except PyError Int :=
  match env "BITBUCKET_PR_ID" with
  | none => .error .typeError
  | some s =>
    match pyIntParse s with
    | some n => .ok n
    | none => .error .valueError

/-- What one execution of the script amounts to: an uncaught exception at
module load (before `main()` starts), an error raised and caught inside
`main()` before the pipeline (missing variables, reviewer construction),
or the pipeline actions performed. -/
inductive ProgramOutcome where
  | loadError (e : PyError)
  | mainError (msg : String)
  | pipeline (tr : List RunAction)
deriving DecidableEq

/-- The body of `main()` (`review.py` lines 175-216): the required-variable
check, the `NebiusReviewer()` construction from the environment, then the
pipeline. -/
def runMain (env : String → Option String) (w : WorldInputs) : ProgramOutcome :=
  if missingVars env ≠ [] then .mainError "Missing required environment variables"
  else
    match NebiusReviewer.init none (env "NEBIUS_API_KEY") with
    | .error m => .mainError m
    | .ok _ => .pipeline (mainTrace w)

/-- A whole run of `review.py` as a script: module load first (line 18),
then `main()` only if loading succeeded. -/
def programRun (env : String → Option String) (w : WorldInputs) : ProgramOutcome :=
  match moduleLoad env with
  | .error e => .loadError e
  | .ok _ => runMain env w

/-- A JSON value. -/
inductive Jv where
  | null
  | bool (b : Bool)
  | num (n : Int)
  | str (s : String)
  | arr (xs : List Jv)
  | obj (fields : List (String × Jv))

/-- One line-anchored review comment (spec section 3): a positive line
number, the quoted source snippet, and the free-text feedback. -/
structure ReviewComment where
  line_number : Int
  line_content : String
  comment : String
deriving DecidableEq

/-- The structured review returned to the caller (spec section 3): a
mapping from file path to its ordered comments, plus the count of
skipped malformed entries reported for observability. -/
structure ReviewResult where
  files : List (String × List ReviewComment)
  skipped : Nat
deriving DecidableEq

/-- Failure kind of the Response Parser: the payload is not a decodable
or expected JSON shape. -/
inductive ParseFailure where
  | schemaError
deriving DecidableEq

/-- First-match lookup of a key in a JSON object's field list. -/
def lookupField : List (String × Jv) → String → Option Jv
  | [], _ => none
  | (k, v) :: rest, key => if k = key then some v else lookupField rest key

/-- Modelled from the spec: coercion of a `line_number` value to a
positive integer (spec section 4.4); a JSON number must be positive, a
string must parse as a positive integer, anything else is non-coercible. -/
def coerceLineNumber : Jv → Option Int
  | .num n => if 0 < n then some n else none
  | .str s =>
    match pyIntParse s with
    | some n => if 0 < n then some n else none
    | none => none
  | _ => none

/-- Modelled from the spec: decoding of one comment entry (spec section
4.4); an entry missing any of `line_number`/`line_content`/`comment`, or
whose `line_number` does not coerce to a positive integer, is skipped
(`none`). -/
def parseComment : Jv → Option ReviewComment
  | .obj fields =>
    match lookupField fields "line_number", lookupField fields "line_content",
        lookupField fields "comment" with
    | some ln, some (.str lc), some (.str cm) =>
      match coerceLineNumber ln with
      | some n => some ⟨n, lc, cm⟩
      | none => none
    | _, _, _ => none
  | _ => none

/-- Modelled from the spec: decoding of one per-file entry (spec section
4.4); a value that is not a sequence is skipped, a sequence keeps the
comments that decode and drops the rest. -/
def fileComments : Jv → Option (List ReviewComment)
  | .arr entries => some (entries.filterMap parseComment)
  | _ => none

/-- Modelled from the spec: the count of individually skipped entries
(spec sections 4.4 and 7): non-sequence file entries and dropped comment
entries. -/
def skippedCount (fileEntries : List (String × Jv)) : Nat :=
  fileEntries.foldl
    (fun acc pf =>
      match pf.2 with
      | .arr entries => acc + (entries.length - (entries.filterMap parseComment).length)
      | _ => acc + 1) 0

/-- Modelled from the spec: the Response Parser `parse` (spec section
4.4), which is absent from `src/`; its textual stage (balanced-JSON
extraction and decoding) is abstracted by taking the decoded JSON value
as input.  A missing or non-object `files` key is a `SchemaError`;
malformed per-file and per-comment entries are skipped individually and
counted; zero surviving comments is still a success. -/
def parseReview : Jv → Except ParseFailure ReviewResult
  | .obj fields =>
    match lookupField fields "files" with
    | some (.obj fileEntries) =>
      .ok ⟨fileEntries.filterMap (fun pf => (fileComments pf.2).map (fun cs => (pf.1, cs))),
        skippedCount fileEntries⟩
    | some _ => .error .schemaError
    | none => .error .schemaError
  | _ => .error .schemaError

theorem data_append (s t : String) : (s ++ t).data = s.data ++ t.data := rfl

theorem pyFormatAux_cons_plain (a : List Char) (c : Char) (cs : List Char)
    (h1 : c ≠ obr) (h2 : c ≠ cbr) :
    pyFormatAux a (c :: cs) = c :: pyFormatAux a cs := by
  conv_lhs => unfold pyFormatAux
  rw [if_neg h1, if_neg h2]

theorem pyFormatAux_chunk (a : List Char) (cs : List Char) :
    ∀ (rest : List Char), braceFree cs →
      pyFormatAux a (cs ++ rest) = cs ++ pyFormatAux a rest := by
  induction cs with
  | nil => intro rest _; simp
  | cons c cs ih =>
    intro rest h
    have hc := h c (List.mem_cons_self c cs)
    have ht : braceFree cs := fun x hx => h x (List.mem_cons_of_mem c hx)
    rw [List.cons_append, pyFormatAux_cons_plain a c (cs ++ rest) hc.1 hc.2,
      ih rest ht, List.cons_append]

theorem pyFormatAux_escape_open (a cs : List Char) :
    pyFormatAux a (obr :: obr :: cs) = obr :: pyFormatAux a cs := rfl

theorem pyFormatAux_escape_close (a cs : List Char) :
    pyFormatAux a (cbr :: cbr :: cs) = cbr :: pyFormatAux a cs := rfl

theorem pyFormatAux_placeholder (a cs : List Char) :
    pyFormatAux a (obr :: (phChars ++ cs)) = a ++ cs := by
  unfold pyFormatAux
  rw [List.drop_left]
  rw [show phChars.isPrefixOf (phChars ++ cs) = true from
    List.isPrefixOf_iff_prefix.mpr (List.prefix_append _ _)]
  rw [show phChars ++ cs = 'd' :: (['i', 'f', 'f', '_', 'c', 'o', 'n', 't', 'e', 'n', 't', cbr] ++ cs) from rfl]
  simp [obr]

theorem braceFree_seg0 : braceFree promptSeg0.data := by decide

theorem braceFree_seg1 : braceFree promptSeg1.data := by decide

theorem braceFree_seg2 : braceFree promptSeg2.data := by decide

theorem braceFree_seg3 : braceFree promptSeg3.data := by decide

theorem braceFree_seg4 : braceFree promptSeg4.data := by decide

theorem braceFree_seg5 : braceFree promptSeg5.data := by decide

theorem braceFree_seg6 : braceFree promptSeg6.data := by decide

theorem braceFree_seg7 : braceFree promptSeg7.data := by decide

theorem braceFree_seg8 : braceFree promptSeg8.data := by decide

theorem pyFormatAux_render (a : List Char) :
    pyFormatAux a REVIEW_PROMPT.data = promptBeforeDiff.data ++ (a ++ [btick]) := by
  rw [show REVIEW_PROMPT.data = promptSeg0.data ++ (obr :: obr :: (promptSeg1.data ++ (obr :: obr :: (promptSeg2.data ++ (obr :: obr :: (promptSeg3.data ++ (cbr :: cbr :: (promptSeg4.data ++ (obr :: obr :: (promptSeg5.data ++ (cbr :: cbr :: (promptSeg6.data ++ (cbr :: cbr :: (promptSeg7.data ++ (cbr :: cbr :: (promptSeg8.data ++ (obr :: (phChars ++ [btick]))))))))))))))))))
    from by simp only [REVIEW_PROMPT, data_append]; rfl]
  rw [pyFormatAux_chunk a promptSeg0.data _ braceFree_seg0, pyFormatAux_escape_open,
    pyFormatAux_chunk a promptSeg1.data _ braceFree_seg1, pyFormatAux_escape_open,
    pyFormatAux_chunk a promptSeg2.data _ braceFree_seg2, pyFormatAux_escape_open,
    pyFormatAux_chunk a promptSeg3.data _ braceFree_seg3, pyFormatAux_escape_close,
    pyFormatAux_chunk a promptSeg4.data _ braceFree_seg4, pyFormatAux_escape_open,
    pyFormatAux_chunk a promptSeg5.data _ braceFree_seg5, pyFormatAux_escape_close,
    pyFormatAux_chunk a promptSeg6.data _ braceFree_seg6, pyFormatAux_escape_close,
    pyFormatAux_chunk a promptSeg7.data _ braceFree_seg7, pyFormatAux_escape_close,
    pyFormatAux_chunk a promptSeg8.data _ braceFree_seg8, pyFormatAux_placeholder]
  rw [show promptBeforeDiff.data = promptSeg0.data ++ ([obr] ++ (promptSeg1.data ++ ([obr] ++ (promptSeg2.data ++ ([obr] ++ (promptSeg3.data ++ ([cbr] ++ (promptSeg4.data ++ ([obr] ++ (promptSeg5.data ++ ([cbr] ++ (promptSeg6.data ++ ([cbr] ++ (promptSeg7.data ++ ([cbr] ++ promptSeg8.data)))))))))))))))
    from by simp only [promptBeforeDiff, data_append]; rfl]
  simp only [List.append_assoc, List.singleton_append, List.cons_append, List.nil_append]

theorem promptOf_eq (d : String) :
    promptOf d = promptBeforeDiff ++ d ++ promptAfterDiff := by
  refine String.ext ?_
  show pyFormatAux d.data REVIEW_PROMPT.data = (promptBeforeDiff ++ d ++ promptAfterDiff).data
  rw [pyFormatAux_render d.data, data_append, data_append,
    show promptAfterDiff.data = [btick] from rfl, List.append_assoc]

theorem openrouter_init_falsy (a e : Option String)
    (ha : pyTruthy a = false) (he : pyTruthy e = false) :
    OpenRouterReviewer.init a e =
      Except.error "OpenRouter API key must be provided either directly or via OPENROUTER_API_KEY environment variable" := by
  have hpy : pyOrStr a e = e := by simp [pyOrStr, ha]
  cases e with
  | none => simp [OpenRouterReviewer.init, hpy]
  | some s =>
    have hs : s = "" := by simpa [pyTruthy] using he
    subst hs
    simp [OpenRouterReviewer.init, hpy]

theorem nebius_init_falsy (a e : Option String)
    (ha : pyTruthy a = false) (he : pyTruthy e = false) :
    NebiusReviewer.init a e =
      Except.error "Nebius API key must be provided either directly or via NEBIUS_API_KEY environment variable" := by
  have hpy : pyOrStr a e = e := by simp [pyOrStr, ha]
  cases e with
  | none => simp [NebiusReviewer.init, hpy]
  | some s =>
    have hs : s = "" := by simpa [pyTruthy] using he
    subst hs
    simp [NebiusReviewer.init, hpy]

theorem openrouter_init_direct (s : String) (e : Option String) (hs : s ≠ "") :
    OpenRouterReviewer.init (some s) e = Except.ok ⟨"https://openrouter.ai/api/v1", s⟩ := by
  have hpy : pyOrStr (some s) e = some s := by simp [pyOrStr, pyTruthy, hs]
  simp [OpenRouterReviewer.init, hpy, hs]

theorem nebius_init_direct (s : String) (e : Option String) (hs : s ≠ "") :
    NebiusReviewer.init (some s) e = Except.ok ⟨"https://api.studio.nebius.ai/v1/", s⟩ := by
  have hpy : pyOrStr (some s) e = some s := by simp [pyOrStr, pyTruthy, hs]
  simp [NebiusReviewer.init, hpy, hs]

theorem openrouter_init_env (s : String) (hs : s ≠ "") :
    OpenRouterReviewer.init none (some s) = Except.ok ⟨"https://openrouter.ai/api/v1", s⟩ := by
  have hpy : pyOrStr none (some s) = some s := by simp [pyOrStr, pyTruthy]
  simp [OpenRouterReviewer.init, hpy, hs]

theorem nebius_init_env (s : String) (hs : s ≠ "") :
    NebiusReviewer.init none (some s) = Except.ok ⟨"https://api.studio.nebius.ai/v1/", s⟩ := by
  have hpy : pyOrStr none (some s) = some s := by simp [pyOrStr, pyTruthy]
  simp [NebiusReviewer.init, hpy, hs]


/-- Claim C1: there is a parse operation from the model's payload to a
`ReviewResult` such that, for every well-formed payload of the shape
`\x7b"files": \x7b...\x7d\x7d`, parsing round-trips every comment whose
three fields `line_number`/`line_content`/`comment` are present and whose
`line_number` is a positive integer into the resulting `ReviewResult`. -/
theorem c1_parse_roundtrip
    (topFields fileEntries : List (String × Jv)) (p : String) (entries : List Jv)
    (fs : List (String × Jv)) (n : Int) (lc cm : String)
    (hfiles : lookupField topFields "files" = some (Jv.obj fileEntries))
    (hp : (p, Jv.arr entries) ∈ fileEntries)
    (he : Jv.obj fs ∈ entries)
    (h1 : lookupField fs "line_number" = some (Jv.num n))
    (hn : 0 < n)
    (h2 : lookupField fs "line_content" = some (Jv.str lc))
    (h3 : lookupField fs "comment" = some (Jv.str cm)) :
    ∃ r : ReviewResult, parseReview (Jv.obj topFields) = Except.ok r ∧
      ∃ cs, (p, cs) ∈ r.files ∧ (⟨n, lc, cm⟩ : ReviewComment) ∈ cs := by
  refine ⟨⟨fileEntries.filterMap (fun pf => (fileComments pf.2).map (fun cs => (pf.1, cs))),
    skippedCount fileEntries⟩, ?_, ?_⟩
  · simp only [parseReview, hfiles]
  · refine ⟨entries.filterMap parseComment, ?_, ?_⟩
    · exact List.mem_filterMap.mpr ⟨(p, Jv.arr entries), hp, by simp [fileComments]⟩
    · refine List.mem_filterMap.mpr ⟨Jv.obj fs, he, ?_⟩
      simp [parseComment, h1, h2, h3, coerceLineNumber, hn]

/-- Witness for C1 at the concrete payload of spec section 8. -/
theorem c1_parse_roundtrip_witness :
    ∃ r : ReviewResult,
      parseReview (Jv.obj [("files", Jv.obj [("a.py", Jv.arr [Jv.obj [("line_number", Jv.num 5), ("line_content", Jv.str "x=1"), ("comment", Jv.str "unused var")]])])]) = Except.ok r ∧
      ∃ cs, ("a.py", cs) ∈ r.files ∧ (⟨5, "x=1", "unused var"⟩ : ReviewComment) ∈ cs :=
  c1_parse_roundtrip _ _ "a.py" _ _ 5 "x=1" "unused var" rfl
    (List.mem_cons_self _ _) (List.mem_cons_self _ _) rfl (by norm_num) rfl rfl

/-- Counterexample to claim C2: on HTTP 404 the diff fetch returns the
same empty-string sentinel as a 2xx response with an empty body, so the
non-2xx outcome carries neither status nor body and is not
distinguishable from the empty-diff outcome. -/
theorem c2_counterexample :
    PRReviewer.get_pr_changes (FetchOutcome.resp ⟨404, "Not Found"⟩) =
      PRReviewer.get_pr_changes (FetchOutcome.resp ⟨200, ""⟩) ∧
    PRReviewer.get_pr_changes (FetchOutcome.resp ⟨404, "Not Found"⟩) = "" := by
  exact ⟨rfl, rfl⟩

/-- Claim C2 as amended: for every HTTP response with a 4xx or 5xx status
(the statuses for which `raise_for_status` raises), `get_pr_changes`
catches the exception and returns the empty string without raising; the
return value carries neither status nor body and coincides with the
transport-error and empty-diff results, so these outcomes are not
distinguishable. -/
theorem c2_amended (st : Nat) (body msg : String) (h1 : 400 ≤ st) (h2 : st < 600) :
    PRReviewer.get_pr_changes (FetchOutcome.resp ⟨st, body⟩) = "" ∧
    PRReviewer.get_pr_changes (FetchOutcome.resp ⟨st, body⟩) =
      PRReviewer.get_pr_changes (FetchOutcome.netError msg) ∧
    PRReviewer.get_pr_changes (FetchOutcome.resp ⟨st, body⟩) =
      PRReviewer.get_pr_changes (FetchOutcome.resp ⟨200, ""⟩) := by
  have h : PRReviewer.get_pr_changes (FetchOutcome.resp ⟨st, body⟩) = "" := by
    simp [PRReviewer.get_pr_changes, h1, h2]
  exact ⟨h, h.trans rfl, h.trans rfl⟩

/-- Witness for the amended C2 at status 404. -/
theorem c2_amended_witness :
    PRReviewer.get_pr_changes (FetchOutcome.resp ⟨404, "Not Found"⟩) = "" ∧
    PRReviewer.get_pr_changes (FetchOutcome.resp ⟨404, "Not Found"⟩) =
      PRReviewer.get_pr_changes (FetchOutcome.netError "Connection refused") ∧
    PRReviewer.get_pr_changes (FetchOutcome.resp ⟨404, "Not Found"⟩) =
      PRReviewer.get_pr_changes (FetchOutcome.resp ⟨200, ""⟩) :=
  c2_amended 404 "Not Found" "Connection refused" (by norm_num) (by norm_num)

/-- Counterexample to claim C3: a completion whose first message lacks
textual content makes both `get_review` variants return the very same
empty-string value they return on a transport/HTTP/SDK error, so the two
outcomes are not distinguishable and no `EmptyResponse` failure value
exists. -/
theorem c3_counterexample :
    OpenRouterReviewer.get_review (CompletionResult.completion [MessageShape.missingContentAttr]) =
      OpenRouterReviewer.get_review (CompletionResult.raised "connection error") ∧
    NebiusReviewer.get_review (CompletionResult.completion [MessageShape.missingContentAttr]) =
      NebiusReviewer.get_review (CompletionResult.raised "connection error") ∧
    OpenRouterReviewer.get_review (CompletionResult.completion [MessageShape.missingContentAttr]) = some "" := by
  exact ⟨rfl, rfl, rfl⟩

/-- Claim C3 as amended: for every completion whose `choices[0].message`
has no `content` attribute — whatever the remaining choices — both
variants return the empty string without throwing, and when the attribute
is present but null they return Python `None`; the empty-string outcome
is identical to the value returned after a transport/HTTP/SDK error, so
missing content is not distinguishable from an error by the returned
value. -/
theorem c3_amended (rest : List MessageShape) (e : String) :
    OpenRouterReviewer.get_review (CompletionResult.completion (MessageShape.missingContentAttr :: rest)) = some "" ∧
    NebiusReviewer.get_review (CompletionResult.completion (MessageShape.missingContentAttr :: rest)) = some "" ∧
    OpenRouterReviewer.get_review (CompletionResult.completion (MessageShape.contentNone :: rest)) = none ∧
    NebiusReviewer.get_review (CompletionResult.completion (MessageShape.contentNone :: rest)) = none ∧
    OpenRouterReviewer.get_review (CompletionResult.raised e) = some "" ∧
    NebiusReviewer.get_review (CompletionResult.raised e) = some "" :=
  ⟨rfl, rfl, rfl, rfl, rfl, rfl⟩

/-- Counterexample to claim C4: two different underlying errors produce
the identical empty-string return value, so the returned value cannot
carry the underlying message and is no `ProviderError` failure value. -/
theorem c4_counterexample :
    OpenRouterReviewer.get_review (CompletionResult.raised "Connection refused") =
      OpenRouterReviewer.get_review (CompletionResult.raised "Invalid API key") ∧
    OpenRouterReviewer.get_review (CompletionResult.raised "Connection refused") = some "" ∧
    NebiusReviewer.get_review (CompletionResult.raised "Connection refused") = some "" := by
  exact ⟨rfl, rfl, rfl⟩

/-- Claim C4 as amended: for every exception raised by the underlying
client, both `get_review` variants catch it and return the empty string
normally, never propagating the fault; the returned value is a bare
sentinel that carries no detail of the underlying message. -/
theorem c4_amended (e : String) :
    OpenRouterReviewer.get_review (CompletionResult.raised e) = some "" ∧
    NebiusReviewer.get_review (CompletionResult.raised e) = some "" :=
  ⟨rfl, rfl⟩

/-- Counterexample to claim C5: a 2xx response with an empty body makes
the diff fetch return the same empty string as a network error and as an
HTTP 500, so the empty-diff outcome is not distinguishable from the
`RemoteError` and `TransportError` outcomes. -/
theorem c5_counterexample :
    PRReviewer.get_pr_changes (FetchOutcome.resp ⟨200, ""⟩) =
      PRReviewer.get_pr_changes (FetchOutcome.netError "timeout") ∧
    PRReviewer.get_pr_changes (FetchOutcome.resp ⟨200, ""⟩) =
      PRReviewer.get_pr_changes (FetchOutcome.resp ⟨500, "Internal Server Error"⟩) := by
  exact ⟨rfl, rfl⟩

/-- Claim C5 as amended: for every successful (2xx) response with an
empty body the diff fetch returns the empty string without crashing, but
this is the same sentinel value as the transport-error outcome, so the
empty-diff outcome is not distinguishable from the failure outcomes. -/
theorem c5_amended (st : Nat) (msg : String) (h1 : 200 ≤ st) (h2 : st < 300) :
    PRReviewer.get_pr_changes (FetchOutcome.resp ⟨st, ""⟩) = "" ∧
    PRReviewer.get_pr_changes (FetchOutcome.resp ⟨st, ""⟩) =
      PRReviewer.get_pr_changes (FetchOutcome.netError msg) := by
  have hno : ¬(400 ≤ st ∧ st < 600) := by omega
  have h : PRReviewer.get_pr_changes (FetchOutcome.resp ⟨st, ""⟩) = "" := by
    simp [PRReviewer.get_pr_changes, hno]
  exact ⟨h, h.trans rfl⟩

/-- Witness for the amended C5 at status 200. -/
theorem c5_amended_witness :
    PRReviewer.get_pr_changes (FetchOutcome.resp ⟨200, ""⟩) = "" ∧
    PRReviewer.get_pr_changes (FetchOutcome.resp ⟨200, ""⟩) =
      PRReviewer.get_pr_changes (FetchOutcome.netError "DNS failure") :=
  c5_amended 200 "DNS failure" (by norm_num) (by norm_num)

/-- Claim C6: prompt building is a pure function of the diff text; for
every diff string the produced prompt is the fixed rendered template with
the diff embedded verbatim between the fixed parts, with no truncation
and no alteration. -/
theorem c6_prompt_verbatim (d : String) :
    promptOf d = promptBeforeDiff ++ d ++ promptAfterDiff ∧
    (promptOf d).length = promptBeforeDiff.length + d.length + promptAfterDiff.length := by
  refine ⟨promptOf_eq d, ?_⟩
  rw [promptOf_eq d, String.length_append, String.length_append]

/-- Claim C7: in every run whose diff fetch fails (network error or a
status on which `raise_for_status` raises, e.g. HTTP 404), `main`
terminates right after the fetch stage: no prompt is built and the
review provider is never invoked. -/
theorem c7_fetch_failure_short_circuit (w : WorldInputs)
    (h : isFetchFailure w.fetchOutcome = true) :
    mainTrace w = [RunAction.fetchDiff] ∧
    RunAction.buildPrompt ∉ mainTrace w ∧
    RunAction.providerCall ∉ mainTrace w := by
  have hempty : PRReviewer.get_pr_changes w.fetchOutcome = "" := by
    cases hw : w.fetchOutcome with
    | netError m => rfl
    | resp r =>
      rw [hw] at h
      simp only [isFetchFailure, Bool.and_eq_true, decide_eq_true_eq] at h
      simp [PRReviewer.get_pr_changes, h.1, h.2]
  have ht : mainTrace w = [RunAction.fetchDiff] := by simp [mainTrace, hempty]
  refine ⟨ht, ?_, ?_⟩ <;> rw [ht] <;> simp

/-- Witness for C7 at a 404 response from the diff source. -/
theorem c7_fetch_failure_witness :
    mainTrace ⟨FetchOutcome.resp ⟨404, "Not Found"⟩, CompletionResult.raised "unused"⟩ =
      [RunAction.fetchDiff] ∧
    RunAction.buildPrompt ∉
      mainTrace ⟨FetchOutcome.resp ⟨404, "Not Found"⟩, CompletionResult.raised "unused"⟩ ∧
    RunAction.providerCall ∉
      mainTrace ⟨FetchOutcome.resp ⟨404, "Not Found"⟩, CompletionResult.raised "unused"⟩ :=
  c7_fetch_failure_short_circuit _ (by decide)

/-- Claim C8: for every construction of a review-backend variant, if no
API key is supplied either directly or via the variant's environment
variable (a key being a nonempty string, matching Python truthiness)
then construction fails with a configuration error (`ValueError` in the
source), and if a key is supplied, directly or via the environment,
construction succeeds without error. -/
theorem c8_api_key_required :
    (∀ a e, pyTruthy a = false → pyTruthy e = false →
      (∃ m, OpenRouterReviewer.init a e = Except.error m) ∧
      (∃ m, NebiusReviewer.init a e = Except.error m)) ∧
    (∀ s e, s ≠ "" →
      (∃ c, OpenRouterReviewer.init (some s) e = Except.ok c) ∧
      (∃ c, NebiusReviewer.init (some s) e = Except.ok c)) ∧
    (∀ s, s ≠ "" →
      (∃ c, OpenRouterReviewer.init none (some s) = Except.ok c) ∧
      (∃ c, NebiusReviewer.init none (some s) = Except.ok c)) := by
  refine ⟨fun a e ha he => ⟨⟨_, openrouter_init_falsy a e ha he⟩,
      ⟨_, nebius_init_falsy a e ha he⟩⟩,
    fun s e hs => ⟨⟨_, openrouter_init_direct s e hs⟩,
      ⟨_, nebius_init_direct s e hs⟩⟩,
    fun s hs => ⟨⟨_, openrouter_init_env s hs⟩,
      ⟨_, nebius_init_env s hs⟩⟩⟩

/-- Witness for C8: no key anywhere fails; a direct key and an
environment key succeed. -/
theorem c8_api_key_required_witness :
    (∃ m, OpenRouterReviewer.init none none = Except.error m) ∧
    (∃ c, NebiusReviewer.init (some "key-123") none = Except.ok c) ∧
    (∃ c, OpenRouterReviewer.init none (some "key-456") = Except.ok c) :=
  ⟨(c8_api_key_required.1 none none rfl rfl).1,
    (c8_api_key_required.2.1 "key-123" none (by decide)).2,
    (c8_api_key_required.2.2 "key-456" (by decide)).1⟩

/-- Claim C9: the two review-backend variants differ only in endpoint,
model identifier and sampling parameters; for every diff text both
construct the identical single user-role message holding the same
rendered prompt. -/
theorem c9_variants_same_message (d : String) :
    (OpenRouterReviewer.request d).messages = (NebiusReviewer.request d).messages ∧
    (OpenRouterReviewer.request d).messages = [⟨"user", promptOf d⟩] ∧
    (OpenRouterReviewer.request d).model ≠ (NebiusReviewer.request d).model ∧
    (OpenRouterReviewer.request d).base_url ≠ (NebiusReviewer.request d).base_url ∧
    (OpenRouterReviewer.request d).max_tokens = none ∧
    (NebiusReviewer.request d).max_tokens = some 8192 ∧
    (NebiusReviewer.request d).temperature = some (6 / 10 : Rat) ∧
    (NebiusReviewer.request d).top_p = some (95 / 100 : Rat) := by
  refine ⟨rfl, rfl, ?_, ?_, rfl, rfl, rfl, rfl⟩ <;>
    simp only [OpenRouterReviewer.request, NebiusReviewer.request] <;> decide

/-- Claim C10: when the environment variable `BITBUCKET_PR_ID` is unset
or not a decimal integer string, the script fails at module load time
(`int` applied to `None` raises `TypeError`, a non-numeric string raises
`ValueError`) before `main` runs; `BITBUCKET_PR_ID` is not among the
five variables of the startup missing-variable check, so a missing PR id
never reaches that configuration-error path nor the pipeline. -/
theorem c10_pr_id_module_crash (env : String → Option String) (w : WorldInputs)
    (h : env "BITBUCKET_PR_ID" = none ∨
      ∃ s, env "BITBUCKET_PR_ID" = some s ∧ pyIntParse s = none) :
    (∃ e, programRun env w = ProgramOutcome.loadError e) ∧
    (∀ m, programRun env w ≠ ProgramOutcome.mainError m) ∧
    (∀ tr, programRun env w ≠ ProgramOutcome.pipeline tr) ∧
    "BITBUCKET_PR_ID" ∉ requiredEnvVars := by
  have hload : ∃ e, moduleLoad env = Except.error e := by
    rcases h with h | ⟨s, hs, hp⟩
    · exact ⟨PyError.typeError, by simp [moduleLoad, h]⟩
    · exact ⟨PyError.valueError, by simp [moduleLoad, hs, hp]⟩
  obtain ⟨e, he⟩ := hload
  have hrun : programRun env w = ProgramOutcome.loadError e := by simp [programRun, he]
  refine ⟨⟨e, hrun⟩, ?_, ?_, by decide⟩
  · intro m hm
    rw [hrun] at hm
    exact ProgramOutcome.noConfusion hm
  · intro tr htr
    rw [hrun] at htr
    exact ProgramOutcome.noConfusion htr

/-- Witness for C10 with an environment that sets nothing. -/
theorem c10_pr_id_module_crash_witness :
    (∃ e, programRun (fun _ => none)
      ⟨FetchOutcome.netError "unused", CompletionResult.raised "unused"⟩ =
        ProgramOutcome.loadError e) ∧
    "BITBUCKET_PR_ID" ∉ requiredEnvVars :=
  ⟨(c10_pr_id_module_crash (fun _ => none)
      ⟨FetchOutcome.netError "unused", CompletionResult.raised "unused"⟩ (Or.inl rfl)).1,
    (c10_pr_id_module_crash (fun _ => none)
      ⟨FetchOutcome.netError "unused", CompletionResult.raised "unused"⟩ (Or.inl rfl)).2.2.2⟩
